import Mathlib

/-!
Verification of the CV-generation route of SkillDB
(src/skilldb/src/app/api/generate-cv/route.ts).

The route is a pure data transformation around four database reads: it
computes tenure durations from date strings, aggregates experiences,
user skills, trainings and certifications into a flat template payload,
and hands that payload to an external document renderer.

Shallow-embedding conventions used throughout this file:

* A JavaScript `Date` that holds a valid instant is modelled by `JSDate`,
  a calendar date in UTC: `year` is `getFullYear()`, `month0` is the
  0-indexed `getMonth()`, `day` is `getDate()`.  An *Invalid Date*
  (whose `getTime()` is `NaN`) is modelled by `none` at type
  `Option JSDate` / `Option Int`.
* `new Date(string)` is modelled by `jsNewDate`, a parser for the ISO
  `YYYY-MM-DD` shapes the application stores (a leading date part of an
  ISO datetime such as the output of `toISOString()` is accepted as
  well); any other string yields `none` (Invalid Date).
* `getTime()` is modelled by `toTime`, a strictly monotone injective
  encoding of the calendar date; `Math.min/Math.max` over times followed
  by `new Date(t).toISOString()` is modelled by `jsMinList`/`jsMaxList`
  followed by `fromTime` (for valid dates this round-trips exactly, and
  only the ordering of times is ever observed by the route).
* `new Date()` ("now") is passed explicitly as a `now : JSDate`
  parameter (a fixed clock).
* TypeScript `string | null | undefined` is `Option String`; JavaScript
  truthiness of a string (`null`, `undefined` and `""` are falsy) is
  made explicit at each use site.
* Code that can throw (e.g. `toISOString()` on an Invalid Date) returns
  `Except String _`; the route-level `try/catch` maps a thrown error to
  the 500 response.
-/

/-- A valid JavaScript `Date`, reduced to the calendar components the
route observes: `getFullYear()`, 0-indexed `getMonth()`, `getDate()`. -/
structure JSDate where
  year : Int
  month0 : Int
  day : Int
deriving DecidableEq, Repr

/-- Monotone injective encoding of a calendar date, standing in for
`Date.prototype.getTime()`: for valid dates it orders exactly like the
millisecond timestamp, which is all the route ever uses times for. -/
def toTime (d : JSDate) : Int :=
  d.year * 10000 + d.month0 * 100 + d.day

/-- Decode `toTime`; models `new Date(t)` followed by reading the
calendar components back (for encodings of valid dates this is the
exact inverse of `toTime`). -/
def fromTime (t : Int) : JSDate :=
  { year := Int.ediv t 10000
    month0 := Int.ediv (Int.emod t 10000) 100
    day := Int.emod (Int.emod t 10000) 100 }

/-- Split a character list on a separator character. -/
def splitOnChar (c : Char) : List Char → List (List Char)
  | [] => [[]]
  | x :: xs =>
    let r := splitOnChar c xs
    if x = c then [] :: r
    else
      match r with
      | [] => [[x]]
      | h :: t => (x :: h) :: t

/-- Read a non-empty all-digit character list as a natural number. -/
def digitsToNat? (l : List Char) : Option Nat :=
  if l.isEmpty then none
  else if l.all Char.isDigit then
    some (l.foldl (fun acc c => acc * 10 + (c.toNat - 48)) 0)
  else none

/-- Whether `y` is a leap year (Gregorian / `Date` rules). -/
def isLeapYear (y : Nat) : Bool :=
  y % 4 = 0 && (y % 100 ≠ 0 || y % 400 = 0)

/-- Number of days of month `m` (1-indexed) of year `y`. -/
def daysInMonth (y m : Nat) : Nat :=
  if m = 2 then (if isLeapYear y then 29 else 28)
  else if m = 4 || m = 6 || m = 9 || m = 11 then 30
  else 31

/-- Model of `new Date(s)` on the date strings the application stores:
parses `YYYY-MM-DD` (also as the date part of an ISO datetime, e.g. the
output of `toISOString()`); out-of-range components or any other shape
give `none`, i.e. an Invalid Date. -/
def jsNewDate (s : String) : Option JSDate :=
  let cs := s.toList.takeWhile (fun c => c ≠ 'T')
  match splitOnChar '-' cs with
  | [ys, ms, ds] =>
    match digitsToNat? ys, digitsToNat? ms, digitsToNat? ds with
    | some y, some m, some d =>
      if 1 ≤ m && m ≤ 12 && 1 ≤ d && d ≤ daysInMonth y m then
        some { year := (y : Int), month0 := (m : Int) - 1, day := (d : Int) }
      else none
    | _, _, _ => none
  | _ => none

/-- Truthiness of a TypeScript `string | null | undefined`:
`null`/`undefined` (both `none`) and `""` are falsy. -/
def truthyOptStr : Option String → Bool
  | none => false
  | some s => s ≠ ""

/-- Truthiness of a TypeScript `boolean | null | undefined`. -/
def truthyOptBool : Option Bool → Bool
  | none => false
  | some b => b

/-- JavaScript `x || d` on an optional string `x` (falsy `x`, i.e.
`null`/`undefined`/`""`, selects the default). -/
def jsOrStr (x : Option String) (d : String) : String :=
  match x with
  | none => d
  | some s => if s = "" then d else s

/-- Model of `String.prototype.toLowerCase()` (defined over the
character list so that it evaluates by `rfl`). -/
def jsToLower (s : String) : String :=
  String.mk (s.data.map Char.toLower)

/-- Model of `String.prototype.trim()`: strip whitespace at both ends
(defined over the character list so that it evaluates by `rfl`). -/
def jsTrim (s : String) : String :=
  String.mk (((s.data.dropWhile Char.isWhitespace).reverse.dropWhile
    Char.isWhitespace).reverse)

/-- The borrow step of `calculateDuration`
(route.ts lines 60-63): `if (months < 0) { years--; months += 12; }`. -/
def borrowSpan (years months : Int) : Int × Int :=
  if months < 0 then (years - 1, months + 12) else (years, months)

/-- The string-building tail of `calculateDuration`
(route.ts lines 65-71), applied to the borrowed (years, months) pair. -/
def renderSpanStr (p : Int × Int) : String :=
  let r1 : String :=
    if p.1 > 0 then toString p.1 ++ " an" ++ (if p.1 > 1 then "s" else "") else ""
  let r2 : String :=
    if p.2 > 0 then (if r1 ≠ "" then r1 ++ " " else r1) ++ toString p.2 ++ " mois"
    else r1
  if jsTrim r2 = "" then "Moins d\x27un mois" else jsTrim r2

/-- Raw year/month difference of `calculateDuration`
(route.ts lines 57-58) followed by the borrow step: the (years, months)
span the rendered duration is built from. -/
def calculateDurationSpan (st en : JSDate) : Int × Int :=
  borrowSpan (en.year - st.year) (en.month0 - st.month0)

/-- Body of `calculateDuration` after both date strings parsed to valid
dates (route.ts lines 57-71). -/
def calculateDurationParsed (st en : JSDate) : String :=
  renderSpanStr (borrowSpan (en.year - st.year) (en.month0 - st.month0))

/-- `calculateDuration` (route.ts lines 52-72).  A falsy start string
returns `""` at once.  When either parse yields an Invalid Date, every
arithmetic value is `NaN`, all `<`/`>` comparisons are false, the
accumulated string stays empty and the fallback "Moins d'un mois" is
returned — the `_, _` branch below. -/
def calculateDuration (startDateStr endDateStr : Option String) (now : JSDate) :
    String :=
  match startDateStr with
  | none => ""
  | some s =>
    if s = "" then ""
    else
      let start? := jsNewDate s
      let end? :=
        match endDateStr with
        | none => some now
        | some e => if e = "" then some now else jsNewDate e
      match start?, end? with
      | some st, some en => calculateDurationParsed st en
      | _, _ => "Moins d\x27un mois"

/-- A `skill_families` row as selected by the experiences query. -/
structure FamilyRow where
  id : String
  name : String
deriving DecidableEq, Repr

/-- A `skills` row as selected by the experiences / user-skills queries
(the experiences query additionally joins `skill_families`). -/
structure SkillRow where
  id : String
  name : String
  type : String
  description : Option String
  skill_families : Option FamilyRow
deriving DecidableEq, Repr

/-- An `experience_skills` join row: carries its joined `skills` row
(`null` when the referenced skill row is absent). -/
structure ExperienceSkill where
  skills : Option SkillRow
deriving DecidableEq, Repr

/-- An `experiences` row as selected by the route.  Per the generated
database types, `company`, `title`, `description` and `startdate` are
non-null; `enddate` and `current` are nullable. -/
structure Experience where
  id : String
  company : String
  title : String
  description : String
  startdate : String
  enddate : Option String
  current : Option Bool
  experience_skills : List ExperienceSkill
deriving DecidableEq, Repr

/-- A nested `trainings` row of the user-skills query. -/
structure Training where
  name : String
  date : Option String
  provider : Option String
deriving DecidableEq, Repr

/-- A `user_skills` row as selected by the route (with its joined
`skills` row and nested `trainings`).  `hascertification` is nullable in
the schema and `hastrainings` is absent from the generated types, so
both are modelled as optional booleans read through JS truthiness. -/
structure UserSkill where
  id : String
  level : Int
  hascertification : Option Bool
  certificationname : Option String
  certificationdate : Option String
  certificationexpiry : Option String
  comment : Option String
  hastrainings : Option Bool
  skills : Option SkillRow
  trainings : List Training
deriving DecidableEq, Repr

/-- A `certifications` row as selected by the route. -/
structure Cert where
  name : String
  date : Option String
  expiry_date : Option String
  userskill_id : String
deriving DecidableEq, Repr

/-- The `users` row as selected by the route. -/
structure UserRow where
  email : String
  fullname : String
  role : String
  createdat : Option String
  updatedat : Option String
deriving DecidableEq, Repr

/-- `new Date(exp.startdate).getTime()`: `none` models `NaN`. -/
def startTime (e : Experience) : Option Int :=
  (jsNewDate e.startdate).map toTime

/-- `exp.enddate ? new Date(exp.enddate) : new Date()` followed by
`getTime()`: a falsy end date means "now"; `none` models `NaN`. -/
def effectiveEndTime (now : JSDate) (e : Experience) : Option Int :=
  match e.enddate with
  | none => some (toTime now)
  | some s => if s = "" then some (toTime now) else (jsNewDate s).map toTime

/-- The filter predicate of `calculateDurationForCompany`
(route.ts line 76): `exp.company && exp.company.toLowerCase() ===
companyName.toLowerCase()`. -/
def companyMatches (companyName : String) (e : Experience) : Bool :=
  if e.company = "" then false
  else jsToLower e.company = jsToLower companyName

/-- `Math.min.apply(null, times)`: `NaN` (here `none`) propagates; the
empty list (which would give `Infinity`) is only ever taken behind a
non-emptiness guard and is mapped to `none` as well. -/
def jsMinList : List (Option Int) → Option Int
  | [] => none
  | x :: xs =>
    xs.foldl (fun acc y =>
      match acc, y with
      | some a, some b => some (min a b)
      | _, _ => none) x

/-- `Math.max.apply(null, times)`, with the same conventions as
`jsMinList`. -/
def jsMaxList : List (Option Int) → Option Int
  | [] => none
  | x :: xs =>
    xs.foldl (fun acc y =>
      match acc, y with
      | some a, some b => some (max a b)
      | _, _ => none) x

/-- `calculateDurationForCompany` (route.ts lines 75-84): filter by
case-insensitive company name, return "N/A" when nothing matches, else
take the envelope (min start time, max effective end time) and render
it with `calculateDuration`.  `minStartDate.toISOString()` /
`maxEndDate.toISOString()` on an Invalid Date (a `NaN` time) throws a
`RangeError`, modelled by the `Except.error` branch; on valid dates the
`toISOString` / re-parse round trip is the identity on the calendar
components, so the call reduces to `calculateDurationParsed` on the
decoded envelope dates. -/
def calculateDurationForCompany (experiences : List Experience)
    (companyName : String) (now : JSDate) : Except String String :=
  let companyExperiences := experiences.filter (companyMatches companyName)
  if companyExperiences.length = 0 then Except.ok "N/A"
  else
    match jsMinList (companyExperiences.map startTime),
        jsMaxList (companyExperiences.map (effectiveEndTime now)) with
    | some tmin, some tmax =>
      Except.ok (calculateDurationParsed (fromTime tmin) (fromTime tmax))
    | _, _ => Except.error "RangeError: Invalid time value"

/-- The `total_experience` computation (route.ts lines 193-202).  It
starts at "N/A"; when there is at least one experience it checks that
EVERY start time parses (`allStartDates.every(d => !isNaN(d))`) and
only then reduces the envelope — one unparseable start date leaves the
whole total at "N/A".  End dates are NOT validated: an unparseable end
date reaches `maxEndDate.toISOString()`, which throws (`Except.error`,
caught by the route's outer try/catch as a 500). -/
def total_experience (experiences : List Experience) (now : JSDate) :
    Except String String :=
  if experiences.length = 0 then Except.ok "N/A"
  else
    let allStartDates := experiences.map startTime
    let allEndDates := experiences.map (effectiveEndTime now)
    if allStartDates.all Option.isSome then
      match jsMinList allStartDates, jsMaxList allEndDates with
      | some tmin, some tmax =>
        Except.ok (calculateDurationParsed (fromTime tmin) (fromTime tmax))
      | _, _ => Except.error "RangeError: Invalid time value"
    else Except.ok "N/A"

/-- The `year` field of a professional-activity row, whose TypeScript
type is `string | number`: `num y` is a real numeric year
(`getFullYear()` of a valid date), `nan` is `getFullYear()` of an
Invalid Date (`NaN`, still `typeof number`), `na` is the string
"N/A". -/
inductive YearVal where
  | num (y : Int)
  | nan
  | na
deriving DecidableEq, Repr

/-- A `professional_activities_rows` entry (route.ts line 271). -/
structure ActivityRow where
  course_certification_name : String
  institution : String
  year : YearVal
  years_of_experience : String
deriving DecidableEq, Repr

/-- `d ? new Date(d).getFullYear() : "N/A"` for an optional date
string: the year tag of an activity row. -/
def yearOfDateField (d : Option String) : YearVal :=
  match d with
  | none => YearVal.na
  | some s =>
    if s = "" then YearVal.na
    else
      match jsNewDate s with
      | some dt => YearVal.num dt.year
      | none => YearVal.nan

/-- The activity row pushed for a `certifications` record
(route.ts lines 272-279). -/
def certRow (cert : Cert) : ActivityRow :=
  { course_certification_name := cert.name
    institution := "N/A (Certification)"
    year := yearOfDateField cert.date
    years_of_experience := "" }

/-- The activity row pushed for a nested training
(route.ts lines 283-290): `training.provider || "N/A"`. -/
def trainingRow (t : Training) : ActivityRow :=
  { course_certification_name := t.name
    institution := jsOrStr t.provider "N/A"
    year := yearOfDateField t.date
    years_of_experience := "" }

/-- The training rows a user-skill contributes (route.ts lines
282-291): guarded by the truthiness of `uskill.hastrainings` (the
nested `trainings` list itself is always an array here). -/
def uskillTrainingRows (u : UserSkill) : List ActivityRow :=
  if truthyOptBool u.hastrainings then u.trainings.map trainingRow else []

/-- The synthetic certification row a user-skill contributes when its
`hascertification` flag is truthy (route.ts lines 292-300); the name is
`uskill.certificationname || uskill.skills?.name ||
"Unnamed Certification"`. -/
def uskillCertRows (u : UserSkill) : List ActivityRow :=
  if truthyOptBool u.hascertification then
    [{ course_certification_name :=
         jsOrStr u.certificationname
           (jsOrStr (u.skills.map SkillRow.name) "Unnamed Certification")
       institution := "N/A (via User Skill)"
       year := yearOfDateField u.certificationdate
       years_of_experience := "" }]
  else []

/-- `professional_activities_rows` before sorting, in push order
(route.ts lines 271-301): all certification rows first, then, per
user-skill, its training rows followed by its synthetic certification
row. -/
def activityRowsUnsorted (certifications : List Cert)
    (userSkills : List UserSkill) : List ActivityRow :=
  certifications.map certRow ++
    (userSkills.map (fun u => uskillTrainingRows u ++ uskillCertRows u)).flatten

/-- The comparator key of the sort (route.ts lines 304-305):
`typeof a.year === 'number' ? a.year : 0`.  `NaN` is `typeof number`,
so a `nan` year yields `none` (a `NaN` key that poisons the
subtraction); the string "N/A" yields the literal 0 of the code. -/
def sortKeyNum : YearVal → Option Int
  | YearVal.num y => some y
  | YearVal.nan => none
  | YearVal.na => some 0

/-- The comparator result `yearB - yearA` (route.ts line 306); `none`
models a `NaN` comparison result. -/
def cmpRows (a b : ActivityRow) : Option Int :=
  match sortKeyNum a.year, sortKeyNum b.year with
  | some ka, some kb => some (kb - ka)
  | _, _ => none

/-- The sort key with `NaN` collapsed to 0; on `nan`-free rows this is
exactly the key the comparator subtracts. -/
def rowSortKey (r : ActivityRow) : Int :=
  (sortKeyNum r.year).getD 0

/-- Insert one row into an already-sorted suffix: the row goes in front
of the first element it need not follow (comparator result `≤ 0`, i.e.
its key is not smaller under the descending order).  Together with
`sortRows` this computes the unique stable descending order that
`Array.prototype.sort` (stable per ES2019) produces for this
comparator; a `NaN` comparison (possible only for `nan` years, where
the engine's order is implementation-defined) is treated as a tie. -/
def insertRow (a : ActivityRow) : List ActivityRow → List ActivityRow
  | [] => [a]
  | b :: bs =>
    match cmpRows a b with
    | some n => if n ≤ 0 then a :: b :: bs else b :: insertRow a bs
    | none => a :: b :: bs

/-- Stable sort of the activity rows by descending numeric year
(route.ts lines 303-307). -/
def sortRows : List ActivityRow → List ActivityRow
  | [] => []
  | a :: rest => insertRow a (sortRows rest)

/-- `professional_activities_rows` as handed to the template: the union
of certification rows, training rows and synthetic certification rows,
sorted descending by numeric year (route.ts lines 271-307). -/
def professional_activities_rows (certifications : List Cert)
    (userSkills : List UserSkill) : List ActivityRow :=
  sortRows (activityRowsUnsorted certifications userSkills)

/-- A fixed clock used by the concrete test inputs (June 15, 2025). -/
def nowSample : JSDate := { year := 2025, month0 := 5, day := 15 }

/-- The "Acme" experience 2019-01-01 .. 2020-06-01 of spec §8 item 4. -/
def expAcmeA : Experience :=
  { id := "e1", company := "Acme", title := "Developer"
    description := "- Led team\n- Shipped v2", startdate := "2019-01-01"
    enddate := some "2020-06-01", current := some false
    experience_skills := [] }

/-- The "Acme" experience 2020-01-01 .. 2021-01-01 of spec §8 item 4,
overlapping `expAcmeA`. -/
def expAcmeB : Experience :=
  { id := "e2", company := "Acme", title := "Senior Developer"
    description := "", startdate := "2020-01-01"
    enddate := some "2021-01-01", current := some false
    experience_skills := [] }

/-- An experience whose start date does not parse. -/
def expBadStart : Experience :=
  { id := "e3", company := "Globex", title := "Consultant"
    description := "", startdate := "not-a-date", enddate := none
    current := some true, experience_skills := [] }

/-- A certification obtained in 2021. -/
def cert2021 : Cert :=
  { name := "AWS Solutions Architect", date := some "2021-03-10"
    expiry_date := none, userskill_id := "us1" }

/-- A certification with no date (year tag "N/A"). -/
def certNoDate : Cert :=
  { name := "Old Cert", date := none, expiry_date := none
    userskill_id := "us1" }

/-- A certification obtained in 2023. -/
def cert2023 : Cert :=
  { name := "Azure Fundamentals", date := some "2023-07-01"
    expiry_date := none, userskill_id := "us2" }

/-- A `domain_expertise_rows` entry (route.ts line 241). -/
structure DomainRow where
  domain : String
  specific_area : String
  experience_yrs_months : String
deriving DecidableEq, Repr

/-- A `technical_expertise_primary_skills` entry (route.ts line 249). -/
structure TechRow where
  skill_name : String
  experience_yrs_months : String
deriving DecidableEq, Repr

/-- An `education_background_rows` entry (route.ts line 266); the list
is always empty in the current scope. -/
structure EducationRow where
  degree_qualification : String
  college_university : String
  year_attained : String
deriving DecidableEq, Repr

/-- A responsibilities / contributions bullet (route.ts line 319). -/
structure RespItem where
  text : String
deriving DecidableEq, Repr

/-- An `employment_history_items` entry (route.ts lines 311-321). -/
structure EmploymentItem where
  project_name : String
  client : String
  project_location : String
  start_date : String
  end_date : String
  team_size : String
  project_description : String
  responsibilities : List RespItem
  other_contributions : List RespItem
deriving DecidableEq, Repr

/-- `Map.prototype.set` on an insertion-ordered association list:
overwrite the value of an existing key in place, else append. -/
def alistSet (k v : String) : List (String × String) → List (String × String)
  | [] => [(k, v)]
  | (k0, v0) :: rest =>
    if k0 = k then (k0, v) :: rest else (k0, v0) :: alistSet k v rest

/-- The upsert of the nested domain map (route.ts lines 234-237):
get-or-create the inner skill map of `dom`, then `set` the skill's
duration. -/
def domainUpsert (dom sk dur : String) :
    List (String × List (String × String)) →
    List (String × List (String × String))
  | [] => [(dom, [(sk, dur)])]
  | (d0, m0) :: rest =>
    if d0 = dom then (d0, alistSet sk dur m0) :: rest
    else (d0, m0) :: domainUpsert dom sk dur rest

/-- The `domain_expertise_map` of route.ts lines 227-240: for every
experience, for every linked skill with a known family, upsert
(family name → skill name → this experience's duration); iterated in
list order, so a later experience overwrites the duration of an earlier
one for the same (family, skill) pair. -/
def domain_expertise_map (experiences : List Experience) (now : JSDate) :
    List (String × List (String × String)) :=
  experiences.foldl (fun acc exp =>
    let expDuration := calculateDuration (some exp.startdate) exp.enddate now
    exp.experience_skills.foldl (fun acc2 es =>
      match es.skills with
      | some sk =>
        match sk.skill_families with
        | some fam => domainUpsert fam.name sk.name expDuration acc2
        | none => acc2
      | none => acc2) acc) []

/-- `domain_expertise_rows` (route.ts lines 241-246): one row per
(domain, skill) pair of the nested map, in insertion order. -/
def domain_expertise_rows (experiences : List Experience) (now : JSDate) :
    List DomainRow :=
  (domain_expertise_map experiences now).flatMap (fun p =>
    p.2.map (fun q =>
      { domain := p.1, specific_area := q.1, experience_yrs_months := q.2 }))

/-- `technical_expertise_primary_skills` (route.ts lines 249-263): for
every experience and every linked skill of type "hard", push the skill
once with the duration of the FIRST experience that referenced it
(`find` + push only when absent). -/
def technical_expertise_primary_skills (experiences : List Experience)
    (now : JSDate) : List TechRow :=
  experiences.foldl (fun acc exp =>
    let expDuration := calculateDuration (some exp.startdate) exp.enddate now
    exp.experience_skills.foldl (fun acc2 es =>
      match es.skills with
      | some sk =>
        if sk.type = "hard" then
          if acc2.any (fun r => r.skill_name = sk.name) then acc2
          else acc2 ++ [{ skill_name := sk.name,
                          experience_yrs_months := expDuration }]
        else acc2
      | none => acc2) acc) []

/-- `dd/mm/yyyy` rendering of `toLocaleDateString('fr-FR')`. -/
def formatFr (d : JSDate) : String :=
  (if d.day < 10 then "0" ++ toString d.day else toString d.day) ++ "/" ++
    (if d.month0 + 1 < 10 then "0" ++ toString (d.month0 + 1)
     else toString (d.month0 + 1)) ++ "/" ++ toString d.year

/-- `new Date(s).toLocaleDateString('fr-FR')`: an Invalid Date prints
as "Invalid Date". -/
def toLocaleDateStringFr (s : String) : String :=
  match jsNewDate s with
  | some d => formatFr d
  | none => "Invalid Date"

/-- `r.replace(/^- /, '')`: strip one leading "- " bullet marker. -/
def stripBullet (r : String) : String :=
  match r.data with
  | '-' :: ' ' :: rest => String.mk rest
  | _ => r

/-- `String.prototype.split('\n')` (over the character list). -/
def jsSplitLines (s : String) : List String :=
  (splitOnChar '\n' s.data).map String.mk

/-- One `employment_history_items` entry (route.ts lines 311-321). -/
def employmentItem (exp : Experience) : EmploymentItem :=
  { project_name := exp.title
    client := exp.company
    project_location := "Brussels, Belgium"
    start_date :=
      if exp.startdate = "" then "N/A" else toLocaleDateStringFr exp.startdate
    end_date :=
      match exp.enddate with
      | none => "Présent"
      | some s => if s = "" then "Présent" else toLocaleDateStringFr s
    team_size := "..."
    project_description := exp.description
    responsibilities :=
      if exp.description = "" then []
      else (jsSplitLines exp.description).map (fun r => { text := stripBullet r })
    other_contributions := [] }

/-- `employment_history_items` (route.ts lines 311-321). -/
def employment_history_items (experiences : List Experience) :
    List EmploymentItem :=
  experiences.map employmentItem

/-- The `dataForTemplate` payload (route.ts lines 343-360). -/
structure TemplateData where
  fullname : String
  role_in_company : String
  email_id : String
  total_experience : String
  dxc_experience : String
  experience_summary_points : List String
  domain_expertise_rows : List DomainRow
  technical_expertise_primary_skills : List TechRow
  technical_expertise_secondary_skills : List TechRow
  education_background_rows : List EducationRow
  professional_activities_rows : List ActivityRow
  employment_history_items : List EmploymentItem
  main_company : String
  contact_no : String
  location : String
  last_updated : String
deriving DecidableEq, Repr

/-- Assemble `dataForTemplate` from the fetched collections, given the
already-computed (possibly throwing) `total_experience` and
`dxc_experience` strings (route.ts lines 180-360). -/
def buildTemplateData (userData : UserRow) (experiences : List Experience)
    (userSkills : List UserSkill) (certifications : List Cert)
    (totalExp dxcExp : String) (now : JSDate) : TemplateData :=
  { fullname := if userData.fullname = "" then "N/A" else userData.fullname
    role_in_company :=
      match experiences.head? with
      | some e => if e.title = "" then "N/A" else e.title
      | none => "N/A"
    email_id := if userData.email = "" then "N/A" else userData.email
    total_experience := totalExp
    dxc_experience := dxcExp
    experience_summary_points := ["Summary généré par défaut."]
    domain_expertise_rows := domain_expertise_rows experiences now
    technical_expertise_primary_skills :=
      technical_expertise_primary_skills experiences now
    technical_expertise_secondary_skills := []
    education_background_rows := []
    professional_activities_rows :=
      professional_activities_rows certifications userSkills
    employment_history_items := employment_history_items experiences
    main_company := "DXC Technology"
    contact_no := "..."
    location := "Company Address"
    last_updated :=
      match userData.updatedat with
      | none => formatFr now
      | some s => if s = "" then formatFr now else toLocaleDateStringFr s }

/-- Names of the four reads the route can issue. -/
inductive QueryName where
  | users
  | experiences
  | user_skills
  | certifications
deriving DecidableEq, Repr

/-- The external relational store, one result per read; the
certifications read is a function of the user-skill id set it is given.
An `Except.error` models a failed read (a non-null supabase `error`). -/
structure Db where
  usersQ : Except String (Option UserRow)
  experiencesQ : Except String (List Experience)
  userSkillsQ : Except String (List UserSkill)
  certificationsQ : List String → Except String (List Cert)

/-- The HTTP outcome of the route.  Rendering by the external
docxtemplater collaborator is modelled as succeeding, so the 200
response carries the assembled `TemplateData` payload. -/
inductive Response where
  | badRequest (error : String)
  | notFound (error : String)
  | serverError (error : String) (details : String)
  | document (payload : TemplateData)

/-- The `GET` handler (route.ts lines 87-398) over the abstract store:
returns the response together with the trace of reads actually issued,
in order.  Sequencing follows the source exactly: a falsy `userId`
gives 400 before any read; a failed or empty user read gives 404; a
failed experiences or user-skills read throws into the outer catch
(500) before any later read is issued; the certifications read is
issued only when the user-skills result is non-empty (and its id list
is non-empty); a `RangeError` thrown by the tenure envelope
computations also lands in the outer catch as a 500. -/
def handleGET (db : Db) (now : JSDate) (userId : Option String) :
    Response × List QueryName :=
  if truthyOptStr userId = false then
    (Response.badRequest "userId is required", [])
  else
    match db.usersQ with
    | Except.error _ =>
      (Response.notFound "User not found or error fetching user data.",
        [QueryName.users])
    | Except.ok none =>
      (Response.notFound "User not found or error fetching user data.",
        [QueryName.users])
    | Except.ok (some userData) =>
      match db.experiencesQ with
      | Except.error e =>
        (Response.serverError "Failed to generate CV." e,
          [QueryName.users, QueryName.experiences])
      | Except.ok experiencesData =>
        match db.userSkillsQ with
        | Except.error e =>
          (Response.serverError "Failed to generate CV." e,
            [QueryName.users, QueryName.experiences, QueryName.user_skills])
        | Except.ok userSkillsData =>
          let certFetch : Except String (List Cert) × Bool :=
            if userSkillsData.length > 0 then
              let userSkillIds := userSkillsData.map (fun u => u.id)
              if userSkillIds.length > 0 then
                (db.certificationsQ userSkillIds, true)
              else (Except.ok [], false)
            else (Except.ok [], false)
          let trace :=
            [QueryName.users, QueryName.experiences, QueryName.user_skills] ++
              (if certFetch.2 then [QueryName.certifications] else [])
          match certFetch.1 with
          | Except.error e =>
            (Response.serverError "Failed to generate CV." e, trace)
          | Except.ok certificationsData =>
            match total_experience experiencesData now with
            | Except.error e =>
              (Response.serverError "Failed to generate CV." e, trace)
            | Except.ok totalExp =>
              match calculateDurationForCompany experiencesData "DXC" now with
              | Except.error e =>
                (Response.serverError "Failed to generate CV." e, trace)
              | Except.ok dxcExp =>
                (Response.document
                  (buildTemplateData userData experiencesData userSkillsData
                    certificationsData totalExp dxcExp now), trace)

/-- A training row used by the concrete inputs. -/
def trainingAgile : Training :=
  { name := "Agile Bootcamp", date := some "2022-03-01",
    provider := some "Coursera" }

/-- A user-skill that HAS a nested training but whose `hastrainings`
flag is falsy: the route drops its training rows. -/
def uskillFlagOff : UserSkill :=
  { id := "us1", level := 3, hascertification := some false,
    certificationname := none, certificationdate := none,
    certificationexpiry := none, comment := none,
    hastrainings := some false, skills := none,
    trainings := [trainingAgile] }

/-- A user-skill with a truthy `hastrainings` flag and one training. -/
def uskillTrainOn : UserSkill :=
  { id := "us3", level := 2, hascertification := none,
    certificationname := none, certificationdate := none,
    certificationexpiry := none, comment := none,
    hastrainings := some true, skills := none,
    trainings := [trainingAgile] }

/-- The `skills` row joined to `uskillCertNamed`. -/
def skillAzure : SkillRow :=
  { id := "sk2", name := "Azure", type := "hard", description := none,
    skill_families := none }

/-- A user-skill flagged `hascertification` whose legacy
`certificationname` field is set, and whose linked skill is named
"Azure". -/
def uskillCertNamed : UserSkill :=
  { id := "us2", level := 4, hascertification := some true,
    certificationname := some "Azure Architect Expert",
    certificationdate := some "2021-05-10", certificationexpiry := none,
    comment := none, hastrainings := none, skills := some skillAzure,
    trainings := [] }

/-- A certification whose date string parses to the real year 0. -/
def certYearZero : Cert :=
  { name := "Ancient Cert", date := some "0000-06-15", expiry_date := none,
    userskill_id := "us1" }

/-- The user row of the concrete store. -/
def userSample : UserRow :=
  { email := "jane@example.com", fullname := "Jane Doe", role := "developer",
    createdat := none, updatedat := some "2024-01-01" }

/-- A store whose third read (user-skills) fails. -/
def dbUserSkillsFail : Db :=
  { usersQ := Except.ok (some userSample)
    experiencesQ := Except.ok [expAcmeA]
    userSkillsQ := Except.error "connection reset"
    certificationsQ := fun _ => Except.ok [] }

theorem insertRow_perm (a : ActivityRow) (l : List ActivityRow) :
    List.Perm (insertRow a l) (a :: l) := by
  induction l with
  | nil => exact List.Perm.refl _
  | cons b bs ih =>
    simp only [insertRow]
    cases h : cmpRows a b with
    | none => exact List.Perm.refl _
    | some n =>
      by_cases hn : n ≤ 0
      · simp [hn]
      · simp only [hn, if_false]
        exact List.Perm.trans (List.Perm.cons b ih) (List.Perm.swap a b bs)

theorem sortRows_perm (l : List ActivityRow) : List.Perm (sortRows l) l := by
  induction l with
  | nil => exact List.Perm.refl _
  | cons a rest ih =>
    exact List.Perm.trans (insertRow_perm a (sortRows rest))
      (List.Perm.cons a ih)

theorem mem_sortRows {r : ActivityRow} {l : List ActivityRow} (h : r ∈ l) :
    r ∈ sortRows l :=
  (List.Perm.mem_iff (sortRows_perm l)).mpr h

theorem sortKeyNum_eq {v : YearVal} (h : v ≠ YearVal.nan) :
    sortKeyNum v = some ((sortKeyNum v).getD 0) := by
  cases v with
  | num y => rfl
  | nan => exact absurd rfl h
  | na => rfl

theorem cmpRows_eq {a b : ActivityRow} (ha : a.year ≠ YearVal.nan)
    (hb : b.year ≠ YearVal.nan) :
    cmpRows a b = some (rowSortKey b - rowSortKey a) := by
  cases h1 : a.year <;> cases h2 : b.year <;>
    simp_all [cmpRows, rowSortKey, sortKeyNum]

theorem insertRow_sorted {a : ActivityRow} {l : List ActivityRow}
    (ha : a.year ≠ YearVal.nan) (hl : ∀ r ∈ l, r.year ≠ YearVal.nan)
    (hs : l.Pairwise (fun x y => rowSortKey y ≤ rowSortKey x)) :
    (insertRow a l).Pairwise (fun x y => rowSortKey y ≤ rowSortKey x) := by
  induction l with
  | nil => simp [insertRow]
  | cons b bs ih =>
    have hb : b.year ≠ YearVal.nan := hl b (List.mem_cons_self b bs)
    have hbs : ∀ r ∈ bs, r.year ≠ YearVal.nan :=
      fun r hr => hl r (List.mem_cons_of_mem b hr)
    rw [List.pairwise_cons] at hs
    simp only [insertRow, cmpRows_eq ha hb]
    by_cases hn : rowSortKey b - rowSortKey a ≤ 0
    · simp only [hn, if_true]
      rw [List.pairwise_cons]
      constructor
      · intro x hx
        rcases List.mem_cons.mp hx with rfl | hx
        · omega
        · have := hs.1 x hx
          omega
      · rw [List.pairwise_cons]
        exact hs
    · simp only [hn, if_false]
      rw [List.pairwise_cons]
      constructor
      · intro x hx
        rcases List.mem_cons.mp
            ((List.Perm.mem_iff (insertRow_perm a bs)).mp hx) with rfl | hx
        · omega
        · exact hs.1 x hx
      · exact ih hbs hs.2

theorem sortRows_sorted {l : List ActivityRow}
    (hl : ∀ r ∈ l, r.year ≠ YearVal.nan) :
    (sortRows l).Pairwise (fun x y => rowSortKey y ≤ rowSortKey x) := by
  induction l with
  | nil => simp [sortRows]
  | cons a rest ih =>
    have ha : a.year ≠ YearVal.nan := hl a (List.mem_cons_self a rest)
    have hrest : ∀ r ∈ rest, r.year ≠ YearVal.nan :=
      fun r hr => hl r (List.mem_cons_of_mem a hr)
    exact insertRow_sorted ha
      (fun r hr => hrest r ((List.Perm.mem_iff (sortRows_perm rest)).mp hr))
      (ih hrest)

theorem mem_unsorted_of_uskill {u : UserSkill} {uskills : List UserSkill}
    (hu : u ∈ uskills) {certs : List Cert} {r : ActivityRow}
    (hr : r ∈ uskillTrainingRows u ++ uskillCertRows u) :
    r ∈ activityRowsUnsorted certs uskills := by
  unfold activityRowsUnsorted
  refine List.mem_append_right _ ?_
  rw [List.mem_flatten]
  exact ⟨uskillTrainingRows u ++ uskillCertRows u,
    List.mem_map_of_mem _ hu, hr⟩

theorem renderSpanStr_nonpos {y m : Int} (hy : y ≤ 0) (hm : m ≤ 0) :
    renderSpanStr (y, m) = "Moins d\x27un mois" := by
  have hy2 : ¬(y > 0) := by omega
  have hm2 : ¬(m > 0) := by omega
  simp only [renderSpanStr, hy2, if_false, hm2]
  rfl

/-- C1: counterexample.  The claim predicts the span {years:3, months:2}
rendered "3 ans 2 mois" for 2020-01-15 .. 2023-04-10, but
`calculateDuration` uses pure calendar month arithmetic
(April − January = 3 months, the days 15 and 10 are never read), so the
code yields {years:3, months:3}, rendered "3 ans 3 mois". -/
theorem C1_counterexample :
    calculateDuration (some "2020-01-15") (some "2023-04-10") nowSample =
        "3 ans 3 mois" ∧
      calculateDurationSpan { year := 2020, month0 := 0, day := 15 }
          { year := 2023, month0 := 3, day := 10 } = (3, 3) ∧
      ("3 ans 3 mois" : String) ≠ "3 ans 2 mois" :=
  ⟨rfl, rfl, by decide⟩

/-- C1 (amended): `calculateDuration` applied to start = 2020-01-15 and
end = 2023-04-10 yields the tenure span {years: 3, months: 3} and
renders it as "3 ans 3 mois" (the month difference is April − January =
3; the day-of-month is ignored by the calendar month arithmetic), for
every value of the clock. -/
theorem C1_tenure_example :
    ∀ now : JSDate,
      jsNewDate "2020-01-15" = some { year := 2020, month0 := 0, day := 15 } ∧
      jsNewDate "2023-04-10" = some { year := 2023, month0 := 3, day := 10 } ∧
      calculateDurationSpan { year := 2020, month0 := 0, day := 15 }
          { year := 2023, month0 := 3, day := 10 } = (3, 3) ∧
      calculateDuration (some "2020-01-15") (some "2023-04-10") now =
        "3 ans 3 mois" :=
  fun _ => ⟨rfl, rfl, rfl, rfl⟩

/-- C5: for every pair of parsed dates, `calculateDuration` computes
`years = end.year - start.year` and `months = end.month - start.month`
by calendar month arithmetic (the day components are ignored), borrows
one year exactly when the raw month difference is negative, and renders
"Moins d'un mois" whenever the resulting span is (0, 0) — in particular
when start and end fall in the same calendar month. -/
theorem C5_span_arithmetic :
    (∀ st en : JSDate, st.month0 ≤ en.month0 →
        calculateDurationSpan st en =
          (en.year - st.year, en.month0 - st.month0)) ∧
      (∀ st en : JSDate, en.month0 < st.month0 →
          calculateDurationSpan st en =
            (en.year - st.year - 1, en.month0 - st.month0 + 12)) ∧
      (∀ st en : JSDate, calculateDurationSpan st en = (0, 0) →
          calculateDurationParsed st en = "Moins d\x27un mois") ∧
      (∀ (st en : JSDate) (d1 d2 : Int),
          calculateDurationParsed { st with day := d1 } { en with day := d2 } =
            calculateDurationParsed st en) ∧
      (∀ st en : JSDate, st.year = en.year → st.month0 = en.month0 →
          calculateDurationParsed st en = "Moins d\x27un mois") := by
  have zeroCase : ∀ st en : JSDate, calculateDurationSpan st en = (0, 0) →
      calculateDurationParsed st en = "Moins d\x27un mois" := by
    intro st en h
    have h2 : borrowSpan (en.year - st.year) (en.month0 - st.month0) = (0, 0) := h
    unfold calculateDurationParsed
    rw [h2]
    rfl
  refine ⟨?_, ?_, zeroCase, ?_, ?_⟩
  · intro st en h
    unfold calculateDurationSpan borrowSpan
    rw [if_neg (by omega)]
  · intro st en h
    unfold calculateDurationSpan borrowSpan
    rw [if_pos (by omega)]
  · intro st en d1 d2
    rfl
  · intro st en h1 h2
    apply zeroCase
    unfold calculateDurationSpan borrowSpan
    rw [if_neg (by omega)]
    simp only [Prod.mk.injEq]
    omega

/-- C5 witness: start and end in the same calendar month (March 2020)
render "Moins d'un mois". -/
theorem C5_span_arithmetic_witness :
    calculateDurationParsed { year := 2020, month0 := 2, day := 5 }
      { year := 2020, month0 := 2, day := 20 } = "Moins d\x27un mois" :=
  C5_span_arithmetic.2.2.2.2 { year := 2020, month0 := 2, day := 5 }
    { year := 2020, month0 := 2, day := 20 } rfl rfl

/-- C9: a `null`/`undefined` start date string makes `calculateDuration`
return the empty string immediately — not the "Moins d'un mois"
sentinel and not an error — whatever the end date string and the
clock. -/
theorem C9_null_start :
    ∀ (endDateStr : Option String) (now : JSDate),
      calculateDuration none endDateStr now = "" ∧
        ("" : String) ≠ "Moins d\x27un mois" :=
  fun _ _ => ⟨rfl, by decide⟩

/-- C10: when the end date precedes the start date,
`calculateDuration` still renders a plain string: the year phrase is
emitted only for a strictly positive year count, so a nonpositive year
count renders exactly like a zero year count (first conjunct), and an
end exactly `n` whole years before the start (span (−n, 0)) renders
"Moins d'un mois" (second conjunct). -/
theorem C10_negative_span :
    (∀ y m : Int, y ≤ 0 → renderSpanStr (y, m) = renderSpanStr (0, m)) ∧
      (∀ (st : JSDate) (n : Nat), 0 < n →
          calculateDurationParsed st
            { year := st.year - n, month0 := st.month0, day := st.day } =
            "Moins d\x27un mois") := by
  constructor
  · intro y m hy
    by_cases hm : m > 0
    · have hy2 : ¬(y > 0) := by omega
      have hz : ¬((0 : Int) > 0) := by omega
      simp only [renderSpanStr, hy2, hz, if_false, hm, if_true]
    · rw [renderSpanStr_nonpos hy (by omega),
        renderSpanStr_nonpos (by omega) (by omega)]
  · intro st n hn
    unfold calculateDurationParsed borrowSpan
    dsimp only
    rw [if_neg (by omega)]
    exact renderSpanStr_nonpos (by omega) (by omega)

/-- C10 witness: an end exactly three whole years before the start
renders "Moins d'un mois". -/
theorem C10_negative_span_witness :
    0 < 3 ∧
      calculateDurationParsed { year := 2020, month0 := 4, day := 10 }
        { year := (2020 : Int) - (3 : Nat), month0 := 4, day := 10 } =
        "Moins d\x27un mois" :=
  ⟨by decide,
    C10_negative_span.2 { year := 2020, month0 := 4, day := 10 } 3 (by decide)⟩

/-- C2: counterexample.  With one experience whose start date parses
and one whose start date does not, `total_experience` is the "N/A"
sentinel: the code checks `every(d => !isNaN(d))` over ALL start times
and abandons the whole computation on the first invalid one, instead of
excluding the invalid date from the min/max reduction (which would have
produced the real tenure "1 an 5 mois" of the surviving experience) —
and "N/A" is thus reported even though not all dates are unparseable. -/
theorem C2_counterexample :
    total_experience [expAcmeA, expBadStart] nowSample = Except.ok "N/A" ∧
      (startTime expAcmeA).isSome = true ∧
      (startTime expBadStart).isSome = false ∧
      total_experience [expAcmeA] nowSample = Except.ok "1 an 5 mois" ∧
      ("N/A" : String) ≠ "1 an 5 mois" :=
  ⟨rfl, rfl, rfl, rfl, by decide⟩

/-- C2 (amended): `total_experience` guards the envelope computation by
requiring EVERY start date to parse: it is "N/A" when there are zero
experiences or when at least one start date is unparseable, and only
when all start dates parse does it reduce the envelope (min start, max
effective end) and render it; end dates are not part of the guard. -/
theorem C2_total_guard :
    (∀ now : JSDate, total_experience [] now = Except.ok "N/A") ∧
      (∀ (exps : List Experience) (now : JSDate),
          (∃ e ∈ exps, startTime e = none) →
          total_experience exps now = Except.ok "N/A") ∧
      (∀ (exps : List Experience) (now : JSDate) (tmin tmax : Int),
          exps ≠ [] →
          (∀ e ∈ exps, (startTime e).isSome = true) →
          jsMinList (exps.map startTime) = some tmin →
          jsMaxList (exps.map (effectiveEndTime now)) = some tmax →
          total_experience exps now =
            Except.ok (calculateDurationParsed (fromTime tmin)
              (fromTime tmax))) := by
  refine ⟨fun now => rfl, ?_, ?_⟩
  · rintro exps now ⟨e, he, hnone⟩
    have hne : ¬(exps.length = 0) := by
      cases exps with
      | nil => cases he
      | cons a l => simp
    have hall : ¬((exps.map startTime).all Option.isSome = true) := by
      intro hcon
      have h2 := List.all_eq_true.mp hcon (startTime e)
        (List.mem_map_of_mem _ he)
      rw [hnone] at h2
      exact absurd h2 (by simp)
    simp only [total_experience]
    rw [if_neg hne, if_neg hall]
  · intro exps now tmin tmax hne hall hmin hmax
    have hl : ¬(exps.length = 0) := by
      cases exps with
      | nil => exact absurd rfl hne
      | cons a l => simp
    have hall2 : (exps.map startTime).all Option.isSome = true := by
      rw [List.all_eq_true]
      intro x hx
      obtain ⟨e, he, rfl⟩ := List.mem_map.mp hx
      exact hall e he
    simp only [total_experience]
    rw [if_neg hl, if_pos hall2, hmin, hmax]

/-- C2 witness: the guarded envelope equation evaluated on a concrete
two-experience list with parseable dates. -/
theorem C2_total_guard_witness :
    total_experience [expAcmeA, expAcmeB] nowSample =
      Except.ok (calculateDurationParsed
        (fromTime (toTime { year := 2019, month0 := 0, day := 1 }))
        (fromTime (toTime { year := 2021, month0 := 0, day := 1 }))) :=
  C2_total_guard.2.2 [expAcmeA, expAcmeB] nowSample
    (toTime { year := 2019, month0 := 0, day := 1 })
    (toTime { year := 2021, month0 := 0, day := 1 })
    (by decide) (by decide) rfl rfl

/-- C4: `calculateDurationForCompany` filters by case-insensitive exact
company-name match; with no matching experience it returns the "N/A"
sentinel; otherwise it renders the tenure of the envelope from the
earliest start time to the latest effective end time of the matching
set (an experience with no end date contributes "now"), so the
overlapping Acme stints 2019-01-01..2020-06-01 and
2020-01-01..2021-01-01 merge into the envelope 2019-01-01..2021-01-01
("2 ans", not a sum of the two stints), also when queried as "ACME". -/
theorem C4_company_envelope :
    (∀ (exps : List Experience) (name : String) (now : JSDate),
        (∀ e ∈ exps, companyMatches name e = false) →
        calculateDurationForCompany exps name now = Except.ok "N/A") ∧
      (∀ (exps : List Experience) (name : String) (now : JSDate)
          (tmin tmax : Int),
          exps.filter (companyMatches name) ≠ [] →
          jsMinList ((exps.filter (companyMatches name)).map startTime) =
            some tmin →
          jsMaxList ((exps.filter (companyMatches name)).map
              (effectiveEndTime now)) = some tmax →
          calculateDurationForCompany exps name now =
            Except.ok (calculateDurationParsed (fromTime tmin)
              (fromTime tmax))) ∧
      calculateDurationForCompany [expAcmeA, expAcmeB] "Acme" nowSample =
        Except.ok (calculateDurationParsed { year := 2019, month0 := 0, day := 1 }
          { year := 2021, month0 := 0, day := 1 }) ∧
      calculateDurationForCompany [expAcmeA, expAcmeB] "Acme" nowSample =
        Except.ok "2 ans" ∧
      calculateDurationForCompany [expAcmeA, expAcmeB] "ACME" nowSample =
        Except.ok "2 ans" := by
  refine ⟨?_, ?_, rfl, rfl, rfl⟩
  · intro exps name now h
    have hf : exps.filter (companyMatches name) = [] := by
      rw [List.filter_eq_nil_iff]
      intro a ha
      simp [h a ha]
    simp only [calculateDurationForCompany]
    rw [hf]
    rfl
  · intro exps name now tmin tmax hne hmin hmax
    simp only [calculateDurationForCompany]
    rw [if_neg (by simpa [List.length_eq_zero] using hne), hmin, hmax]

/-- C4 witness: a company name matching no experience yields the "N/A"
sentinel. -/
theorem C4_company_envelope_witness :
    calculateDurationForCompany [expAcmeA, expAcmeB] "Initech" nowSample =
      Except.ok "N/A" :=
  C4_company_envelope.1 [expAcmeA, expAcmeB] "Initech" nowSample (by decide)

/-- C3: counterexample.  A user-skill with a falsy `hastrainings` flag
but a non-empty nested `trainings` list contributes NO row at all:
`professional_activities_rows` only walks `uskill.trainings` behind the
`uskill.hastrainings` truthiness guard, so the claim's unconditional
"every training nested under it" fails. -/
theorem C3_counterexample :
    professional_activities_rows [] [uskillFlagOff] = [] ∧
      uskillFlagOff.trainings = [trainingAgile] :=
  ⟨rfl, rfl⟩

/-- C3 (amended): for every user-skill whose `hastrainings` flag is
truthy and every training nested under it,
`professional_activities_rows` contains a row for that training,
carrying the training's name, its provider (or "N/A") and its year
tag. -/
theorem C3_training_rows :
    ∀ (certs : List Cert) (uskills : List UserSkill) (u : UserSkill)
      (t : Training), u ∈ uskills → truthyOptBool u.hastrainings = true →
      t ∈ u.trainings →
      ∃ r ∈ professional_activities_rows certs uskills,
        r.course_certification_name = t.name ∧
          r.institution = jsOrStr t.provider "N/A" ∧
          r.year = yearOfDateField t.date := by
  intro certs uskills u t hu htr ht
  refine ⟨trainingRow t, ?_, rfl, rfl, rfl⟩
  apply mem_sortRows
  apply mem_unsorted_of_uskill hu
  apply List.mem_append_left
  unfold uskillTrainingRows
  rw [htr, if_pos rfl]
  exact List.mem_map_of_mem _ ht

/-- C3 witness: the training of a flagged user-skill shows up in the
output rows. -/
theorem C3_training_rows_witness :
    ∃ r ∈ professional_activities_rows [] [uskillTrainOn],
      r.course_certification_name = trainingAgile.name ∧
        r.institution = jsOrStr trainingAgile.provider "N/A" ∧
        r.year = yearOfDateField trainingAgile.date :=
  C3_training_rows [] [uskillTrainOn] uskillTrainOn trainingAgile
    (List.mem_singleton.mpr rfl) rfl (List.mem_singleton.mpr rfl)

/-- C6: counterexample.  A user-skill flagged `hascertification` with
zero structured certification rows but a set legacy `certificationname`
("Azure Architect Expert") produces its synthetic entry under THAT name
— the skill's own name ("Azure") is only the second fallback of
`uskill.certificationname || uskill.skills?.name || "Unnamed
Certification"`, so the claim's "using the skill's own name" fails. -/
theorem C6_counterexample :
    (professional_activities_rows [] [uskillCertNamed]).map
        (fun r => r.course_certification_name) = ["Azure Architect Expert"] ∧
      uskillCertNamed.skills.map SkillRow.name = some "Azure" ∧
      ("Azure Architect Expert" : String) ≠ "Azure" :=
  ⟨rfl, rfl, by decide⟩

/-- C6 (amended): every user-skill whose `hascertification` flag is
truthy (in particular one with zero structured certification rows)
contributes exactly one synthetic entry, whose name is the user-skill's
`certificationname` when truthy, else the linked skill's name, else
"Unnamed Certification"; the entry appears in
`professional_activities_rows`. -/
theorem C6_synthetic_cert :
    ∀ (certs : List Cert) (uskills : List UserSkill) (u : UserSkill),
      u ∈ uskills → truthyOptBool u.hascertification = true →
      (∀ c ∈ certs, c.userskill_id ≠ u.id) →
      ∃ r, uskillCertRows u = [r] ∧
        r.course_certification_name =
          jsOrStr u.certificationname
            (jsOrStr (u.skills.map SkillRow.name) "Unnamed Certification") ∧
        r.institution = "N/A (via User Skill)" ∧
        r.year = yearOfDateField u.certificationdate ∧
        r ∈ professional_activities_rows certs uskills := by
  intro certs uskills u hu hc _hzero
  refine ⟨{ course_certification_name :=
              jsOrStr u.certificationname
                (jsOrStr (u.skills.map SkillRow.name) "Unnamed Certification")
            institution := "N/A (via User Skill)"
            year := yearOfDateField u.certificationdate
            years_of_experience := "" }, ?_, rfl, rfl, rfl, ?_⟩
  · unfold uskillCertRows
    rw [hc, if_pos rfl]
  · apply mem_sortRows
    apply mem_unsorted_of_uskill hu
    apply List.mem_append_right
    unfold uskillCertRows
    rw [hc, if_pos rfl]
    exact List.mem_singleton.mpr rfl

/-- C6 witness: the flagged user-skill with a legacy certification name
contributes its single synthetic entry. -/
theorem C6_synthetic_cert_witness :
    ∃ r, uskillCertRows uskillCertNamed = [r] ∧
      r.course_certification_name =
        jsOrStr uskillCertNamed.certificationname
          (jsOrStr (uskillCertNamed.skills.map SkillRow.name)
            "Unnamed Certification") ∧
      r.institution = "N/A (via User Skill)" ∧
      r.year = yearOfDateField uskillCertNamed.certificationdate ∧
      r ∈ professional_activities_rows [] [uskillCertNamed] :=
  C6_synthetic_cert [] [uskillCertNamed] uskillCertNamed
    (List.mem_singleton.mpr rfl) rfl (by simp)

/-- C7: counterexample.  An entry with a missing year ("N/A", key 0)
does NOT sort after every entry with a real numeric year: against a
certification whose real year is 0 the comparator ties (0 − 0), the
stable sort keeps input order, and the "N/A" entry stays FIRST. -/
theorem C7_counterexample :
    professional_activities_rows [certNoDate, certYearZero] [] =
        [certRow certNoDate, certRow certYearZero] ∧
      (certRow certNoDate).year = YearVal.na ∧
      (certRow certYearZero).year = YearVal.num 0 :=
  ⟨rfl, rfl, rfl⟩

/-- C7 (amended): `professional_activities_rows` is a permutation of
the pushed rows, sorted descending by the numeric sort key (the entry's
year when numeric, else 0) whenever no year tag is `NaN`; entries with
an unparseable or missing year carry key 0 and hence appear after every
entry with a positive year (they tie with real year 0); the example
years [2021, "N/A", 2023] order as [2023, 2021, "N/A"]. -/
theorem C7_sort_descending :
    (∀ (certs : List Cert) (uskills : List UserSkill),
        (∀ r ∈ activityRowsUnsorted certs uskills, r.year ≠ YearVal.nan) →
        (professional_activities_rows certs uskills).Pairwise
          (fun a b => rowSortKey b ≤ rowSortKey a)) ∧
      (∀ (certs : List Cert) (uskills : List UserSkill),
          List.Perm (professional_activities_rows certs uskills)
            (activityRowsUnsorted certs uskills)) ∧
      (professional_activities_rows [cert2021, certNoDate, cert2023] []).map
          (fun r => r.year) =
        [YearVal.num 2023, YearVal.num 2021, YearVal.na] :=
  ⟨fun _ _ h => sortRows_sorted h, fun _ _ => sortRows_perm _, rfl⟩

/-- C7 witness: the concrete three-entry list is sorted descending by
the numeric sort key. -/
theorem C7_sort_descending_witness :
    (professional_activities_rows [cert2021, certNoDate, cert2023] []).Pairwise
      (fun a b => rowSortKey b ≤ rowSortKey a) :=
  C7_sort_descending.1 [cert2021, certNoDate, cert2023] [] (by decide)

/-- C8: when the third read (user-skills) fails, the route responds
with the 500 "Failed to generate CV." error carrying that read's error
as details, the trace of issued reads stops at the user-skills query —
the certifications read is never issued — and no document (hence no
assembled ViewModel) is produced. -/
theorem C8_userskills_failure :
    ∀ (db : Db) (now : JSDate) (uid : String) (u : UserRow)
      (exps : List Experience) (e : String),
      uid ≠ "" →
      db.usersQ = Except.ok (some u) →
      db.experiencesQ = Except.ok exps →
      db.userSkillsQ = Except.error e →
      handleGET db now (some uid) =
          (Response.serverError "Failed to generate CV." e,
            [QueryName.users, QueryName.experiences, QueryName.user_skills]) ∧
        QueryName.certifications ∉ (handleGET db now (some uid)).2 ∧
        ∀ p, (handleGET db now (some uid)).1 ≠ Response.document p := by
  intro db now uid u exps e huid h1 h2 h3
  have hmain : handleGET db now (some uid) =
      (Response.serverError "Failed to generate CV." e,
        [QueryName.users, QueryName.experiences, QueryName.user_skills]) := by
    unfold handleGET
    rw [if_neg (by simp [truthyOptStr, huid]), h1, h2, h3]
  refine ⟨hmain, ?_, ?_⟩
  · rw [hmain]
    dsimp only
    decide
  · intro p
    rw [hmain]
    intro hcon
    exact Response.noConfusion hcon

/-- C8 witness: a concrete store whose user-skills read fails yields
the 500 and a three-query trace. -/
theorem C8_userskills_failure_witness :
    handleGET dbUserSkillsFail nowSample (some "user-1") =
      (Response.serverError "Failed to generate CV." "connection reset",
        [QueryName.users, QueryName.experiences, QueryName.user_skills]) :=
  (C8_userskills_failure dbUserSkillsFail nowSample "user-1" userSample
    [expAcmeA] "connection reset" (by decide) rfl rfl rfl).1
